import Mathlib

set_option autoImplicit false

/-!
Shallow embedding of the `apps/api/auth` package and the Google OAuth
service of the webapp-factory repository: JWT signing/verification,
claims model, FastAPI auth dependencies, guard decorators, the JWKS
cache and refresh-token rotation.  Timestamps are modelled as integer
Unix seconds; the HMAC signature of a JWT is modelled symbolically by
recording the signing key and algorithm inside the token.
-/

deriving instance DecidableEq for Except

namespace WebappFactory

/-! ### Python-level helpers -/

/-- Python `str.lower()`, restricted to ASCII (all strings occurring in
this development are ASCII); written via the character list so that it
reduces definitionally. -/
def pyLower (s : String) : String := ⟨s.data.map Char.toLower⟩

/-- Truthiness of a Python `str | None` value: `None` and `""` are falsy. -/
def pyTruthyStr : Option String → Bool
  | none => false
  | some s => !(s = "")

/-- Python `x or ""` for `x : str | None` (used by `(claims.plan or "")`). -/
def pyOrEmpty : Option String → String
  | none => ""
  | some s => s

/-- Python `xs or []` for `xs : list | None` (used by `roles or []`). -/
def pyOrNil : Option (List String) → List String
  | none => []
  | some l => l

/-- Python `str(x)` for `x : str | None`; `str(None)` is the string "None". -/
def pyStr : Option String → String
  | none => "None"
  | some s => s

/-! ### Configuration (module-level constants in `auth/jwt.py`, default values) -/

def APP_JWT_AUDIENCE : String := "webapp-factory"
def APP_JWT_ISSUER : String := "https://api.example.com"
def APP_JWT_ALG : String := "HS256"
def APP_JWT_SECRET : String := "dev-secret-change-me"

/-! ### Tokens and payloads -/

/-- Payload dictionary of an access JWT, as built by `sign_access_jwt`.
`sub` is optional because a hand-crafted token may omit the claim
entirely (`claims.get("sub")` in the source). -/
structure JwtPayload where
  sub : Option String
  email : Option String
  orgId : Option String
  roles : List String
  plan : Option String
  features : List String
  iat : Int
  exp : Int
  aud : String
  iss : String
deriving Repr, DecidableEq

/-- A structurally well-formed JWT: its payload together with the key and
algorithm it was signed with (symbolic model of the HMAC signature). -/
structure SignedToken where
  payload : JwtPayload
  key : String
  alg : String
deriving Repr, DecidableEq

/-- A token string handed to `verify_access_jwt`: the empty string, a
string that does not parse as a JWT, or a well-formed signed token. -/
inductive Token where
  | emptyStr : Token
  | malformed : String → Token
  | signed : SignedToken → Token
deriving Repr, DecidableEq

/-- Exceptions of the `pyjwt` library relevant to `jwt.decode`; all of
them except `expiredSignature` are caught as `InvalidTokenError` by
`verify_access_jwt` (and `ExpiredSignatureError` is itself a subclass of
`InvalidTokenError`, caught first). -/
inductive PyJwtError where
  | expiredSignature
  | invalidSignature
  | invalidAudience
  | invalidAlgorithm
  | decodeError
deriving Repr, DecidableEq

/-- Mismatch check for an expected claim value: pyjwt only compares the
claim when an expected value was supplied to `jwt.decode`. -/
def claimMismatch (expected : Option String) (actual : String) : Bool :=
  match expected with
  | none => false
  | some e => !(actual = e)

/-- Model of `jwt.decode(token, key, algorithms=..., audience=...)` from
pyjwt, as called by `verify_access_jwt`.  Validation order follows
pyjwt: algorithm and signature first, then `exp`, then `aud`, then
`iss`.  The `aud` and `iss` claims are only compared when an expected
value is supplied; `verify_access_jwt` supplies an audience but no
issuer, so the issuer comparison is skipped there. -/
def jwtDecode (tok : Token) (key : String) (algorithms : List String)
    (audience issuer : Option String) (now : Int) : Except PyJwtError JwtPayload :=
  match tok with
  | .emptyStr => .error .decodeError
  | .malformed _ => .error .decodeError
  | .signed t =>
    if ¬ algorithms.contains t.alg then .error .invalidAlgorithm
    else if t.key ≠ key then .error .invalidSignature
    else if t.payload.exp ≤ now then .error .expiredSignature
    else if claimMismatch audience t.payload.aud then .error .invalidAudience
    else if claimMismatch issuer t.payload.iss then .error .decodeError
    else .ok t.payload

/-- FastAPI `HTTPException`, carrying a status code and a detail string. -/
structure HTTPException where
  status_code : Nat
  detail : String
deriving Repr, DecidableEq

/-- Custom `JWTError(detail)` from `auth/jwt.py`: an `HTTPException`
with status 401. -/
def JWTError (detail : String) : HTTPException := ⟨401, detail⟩

/-- Model of `sign_access_jwt`: builds the payload (normalizing `None`
roles/features to `[]`, stamping `iat = now`, `exp = now + ttl`, the
configured audience and issuer) and signs it with the configured secret
and algorithm.  `now` is the signing instant in Unix seconds. -/
def sign_access_jwt (sub : String) (email orgId : Option String)
    (roles : Option (List String)) (plan : Option String)
    (features : Option (List String)) (ttl_minutes : Int) (now : Int) : Token :=
  .signed
    { payload :=
        { sub := some sub
          email := email
          orgId := orgId
          roles := pyOrNil roles
          plan := plan
          features := pyOrNil features
          iat := now
          exp := now + ttl_minutes * 60
          aud := APP_JWT_AUDIENCE
          iss := APP_JWT_ISSUER }
      key := APP_JWT_SECRET
      alg := APP_JWT_ALG }

/-- Model of `verify_access_jwt`: rejects the empty token string, calls
`jwt.decode` with the configured secret, algorithm list and audience
(and, exactly as at the call site in the source, no expected issuer),
maps `ExpiredSignatureError` to "Token expired" and every other
`InvalidTokenError` to "Invalid token", and finally rejects payloads
whose `sub` claim is absent or falsy with "Missing subject". -/
def verify_access_jwt (token : Token) (now : Int) : Except HTTPException JwtPayload :=
  if token = .emptyStr then .error (JWTError "Invalid token")
  else
    match jwtDecode token APP_JWT_SECRET [APP_JWT_ALG] (some APP_JWT_AUDIENCE) none now with
    | .error .expiredSignature => .error (JWTError "Token expired")
    | .error _ => .error (JWTError "Invalid token")
    | .ok claims =>
      if ¬ pyTruthyStr claims.sub then .error (JWTError "Missing subject")
      else .ok claims

/-! ### Claims model (`auth/models.py`) -/

/-- Pydantic `ValidationError`, reduced to the custom
`{"field", "type"}` shape produced by `AuthClaims.__init__`. -/
structure ValidationError where
  field : String
  type : String
deriving Repr, DecidableEq

/-- Validated claims extracted from a JWT (`AuthClaims` in
`auth/models.py`); standard claims (`exp`, `iat`, `iss`, `aud`) are
validated by the codec but not kept here. -/
structure AuthClaims where
  sub : String
  email : Option String
  orgId : Option String
  roles : List String
  plan : Option String
  features : List String
deriving Repr, DecidableEq

/-- Construction `AuthClaims(**claims_dict)` from a decoded payload:
`sub` is a required string with `min_length=1`; `roles`/`features` come
from the payload lists (the `ensure_list` validator maps `None` to `[]`,
which the typed payload already guarantees). -/
def mkAuthClaims (d : JwtPayload) : Except ValidationError AuthClaims :=
  match d.sub with
  | none => .error ⟨"sub", "missing"⟩
  | some s =>
    if s = "" then .error ⟨"sub", "value_error.any_str.min_length"⟩
    else .ok ⟨s, d.email, d.orgId, d.roles, d.plan, d.features⟩

/-- `AuthClaims.has_role`: case-insensitive membership in `roles`. -/
def AuthClaims.has_role (c : AuthClaims) (role : String) : Bool :=
  (c.roles.map pyLower).contains (pyLower role)

/-- `AuthClaims.has_any_role`: case-insensitive intersection of the
user's roles with the given roles. -/
def AuthClaims.has_any_role (c : AuthClaims) (roles : List String) : Bool :=
  (c.roles.map pyLower).any fun r => (roles.map pyLower).contains r

/-- `AuthClaims.has_plan`: only `None` is treated as "no plan"; the
empty string is a valid plan value; comparison is case-insensitive. -/
def AuthClaims.has_plan (c : AuthClaims) (plans : List String) : Bool :=
  match c.plan with
  | none => false
  | some p => (plans.map pyLower).contains (pyLower p)

/-- `AuthClaims.has_feature`: case-insensitive membership in `features`. -/
def AuthClaims.has_feature (c : AuthClaims) (feature : String) : Bool :=
  (c.features.map pyLower).contains (pyLower feature)

/-- `AuthClaims.belongs_to_org`: only `None` is treated as "no org"; the
empty string is compared normally, via Python `str()` on both sides
(`str(None)` is the string "None"). -/
def AuthClaims.belongs_to_org (c : AuthClaims) (org_id : Option String) : Bool :=
  match c.orgId with
  | none => false
  | some o => o = pyStr org_id

/-! ### FastAPI dependencies (`auth/deps.py`) -/

/-- Exceptions escaping the dependency functions: `HTTPException`
(which `JWTError` subclasses) or a pydantic `ValidationError` raised by
`AuthClaims(**claims_dict)` (not an `HTTPException`). -/
inductive PyExc where
  | http : HTTPException → PyExc
  | validation : ValidationError → PyExc
deriving Repr, DecidableEq

/-- Authorization header handed to a dependency: absent (or the falsy
empty string), present but not starting case-insensitively with
"bearer ", or a bearer header whose token part (after `split`/`strip`)
is `tok`. -/
inductive AuthHeader where
  | missing : AuthHeader
  | nonBearer : String → AuthHeader
  | bearer : Token → AuthHeader
deriving Repr, DecidableEq

/-- Model of `_extract_bearer_token`: 401 "Missing bearer token" unless
the header is a bearer header; otherwise the token after the space. -/
def extract_bearer_token : AuthHeader → Except HTTPException Token
  | .missing => .error ⟨401, "Missing bearer token"⟩
  | .nonBearer _ => .error ⟨401, "Missing bearer token"⟩
  | .bearer tok => .ok tok

/-- Model of `auth_required`: extract the bearer token, verify it, and
build `AuthClaims` from the verified claims dictionary. -/
def auth_required (authorization : AuthHeader) (now : Int) : Except PyExc AuthClaims :=
  match extract_bearer_token authorization with
  | .error e => .error (.http e)
  | .ok token =>
    match verify_access_jwt token now with
    | .error e => .error (.http e)
    | .ok claims_dict =>
      match mkAuthClaims claims_dict with
      | .error e => .error (.validation e)
      | .ok claims => .ok claims

/-- Model of the dependency returned by `require_plan(*plans)`, applied
to already-authenticated claims: normalizes the claim plan with
`(claims.plan or "").lower()` and requires membership in the lowercased
allowed plans, else 402. -/
def require_plan (plans : List String) (claims : AuthClaims) : Except HTTPException AuthClaims :=
  let plans_norm := plans.map pyLower
  let plan := pyLower (pyOrEmpty claims.plan)
  if ¬ plans_norm.contains plan then
    .error ⟨402, "Upgrade required. Required plan: " ++ String.intercalate ", " plans⟩
  else .ok claims

/-- Resolution of the org parameter inside `require_org`: Python
`request.path_params.get(p) or request.query_params.get(p)` (a falsy
path value falls through to the query value). -/
def resolveOrgParam (pathVal queryVal : Option String) : Option String :=
  if pyTruthyStr pathVal then pathVal else queryVal

/-- Model of the dependency returned by `require_org(param)`, applied to
already-authenticated claims and the raw path/query parameter values:
400 if the resolved parameter is falsy, 403 if the claims do not belong
to that organization. -/
def require_org (pathVal queryVal : Option String) (claims : AuthClaims) :
    Except HTTPException AuthClaims :=
  let param_value := resolveOrgParam pathVal queryVal
  if ¬ pyTruthyStr param_value then
    .error ⟨400, "Missing required parameter: org_id"⟩
  else if ¬ claims.belongs_to_org param_value then
    .error ⟨403, "Access denied: organization mismatch"⟩
  else .ok claims

/-- Model of `optional_auth`: `None` for a missing header; otherwise
run the same extract/verify/build steps as `auth_required`, turning any
`HTTPException` into `None` (a pydantic `ValidationError` is not an
`HTTPException` and would propagate). -/
def optional_auth (authorization : AuthHeader) (now : Int) :
    Except PyExc (Option AuthClaims) :=
  match authorization with
  | .missing => .ok none
  | _ =>
    let attempt : Except PyExc AuthClaims :=
      match extract_bearer_token authorization with
      | .error e => .error (.http e)
      | .ok token =>
        match verify_access_jwt token now with
        | .error e => .error (.http e)
        | .ok claims_dict =>
          match mkAuthClaims claims_dict with
          | .error e => .error (.validation e)
          | .ok claims => .ok claims
    match attempt with
    | .ok claims => .ok (some claims)
    | .error (.http _) => .ok none
    | .error e => .error e

/-! ### Guard decorators (`auth/decorators.py`) -/

/-- `GuardError(message)`: a `PermissionError` raised by failing guards. -/
structure GuardError where
  message : String
deriving Repr, DecidableEq

/-- Keyword arguments of a guarded service function, reduced to the
only entry the modelled guards inspect: `kwargs.get("claims")`. -/
structure Kwargs where
  claims : Option AuthClaims
deriving Repr, DecidableEq

/-- A service function taking keyword arguments, possibly raising a
`GuardError` (guards wrap functions of this shape). -/
def ServiceFn (α : Type) : Type := Kwargs → Except GuardError α

/-- Model of the `guard_roles(*allowed)` decorator: missing claims or
an empty case-insensitive intersection of the user's roles with the
allowed roles raises a `GuardError`, otherwise the wrapped function
runs. -/
def guard_roles (allowed : List String) {α : Type} (fn : ServiceFn α) : ServiceFn α :=
  fun kwargs =>
    match kwargs.claims with
    | none => .error ⟨"Missing authentication claims"⟩
    | some claims =>
      let allowed_norm := allowed.map pyLower
      let user_roles := claims.roles.map pyLower
      if ¬ user_roles.any (fun r => allowed_norm.contains r) then
        .error ⟨"Insufficient role. Required: " ++ String.intercalate ", " allowed⟩
      else fn kwargs

/-- Model of the `guard_plan(*plans)` decorator: missing claims raises;
the claim plan is normalized with `(claims.plan or "").lower()` and must
be a member of the lowercased allowed plans. -/
def guard_plan (plans : List String) {α : Type} (fn : ServiceFn α) : ServiceFn α :=
  fun kwargs =>
    match kwargs.claims with
    | none => .error ⟨"Missing authentication claims"⟩
    | some claims =>
      let plans_norm := plans.map pyLower
      let plan := pyLower (pyOrEmpty claims.plan)
      if ¬ plans_norm.contains plan then
        .error ⟨"Upgrade required. Required plan: " ++ String.intercalate ", " plans⟩
      else fn kwargs

/-- Model of `combine_guards(*guards)`: `for guard in reversed(guards):
fn = guard(fn)`, so the first guard in the list is the outermost wrapper
and runs first. -/
def combine_guards {α : Type} (guards : List (ServiceFn α → ServiceFn α))
    (fn : ServiceFn α) : ServiceFn α :=
  guards.reverse.foldl (fun f g => g f) fn

/-! ### Google OAuth service (`services/google_oauth_service.py`) -/

/-- A JWKS document, modelled as a key-id to public-key association
list (Python: the parsed JSON dict; an empty dict is falsy). -/
def Jwks : Type := List (String × String)

instance : DecidableEq Jwks := inferInstanceAs (DecidableEq (List (String × String)))

/-- The mutable JWKS cache fields of `GoogleOAuthService`: both start
as `None` in `__init__`; `_jwks_cache_ttl` is one hour (3600 s). -/
structure JwksState where
  jwks_cache : Option Jwks
  jwks_cache_time : Option Int
deriving DecidableEq

/-- Default `_jwks_cache_ttl` (`timedelta(hours=1)`), in seconds. -/
def jwks_cache_ttl : Int := 3600

/-- Result of one `_get_jwks` call: the keys returned, the cache state
afterwards, and whether an upstream HTTP fetch of the JWKS URL
occurred. -/
structure JwksResult where
  keys : Jwks
  state : JwksState
  fetched : Bool
deriving DecidableEq

/-- Upstream fetch of the JWKS document: a non-200 response raises 500
and leaves the cache untouched; a 200 response unconditionally replaces
both cache fields. -/
def fetch_jwks (now : Int) (upstream : Except Unit Jwks) : Except HTTPException JwksResult :=
  match upstream with
  | .error _ => .error ⟨500, "Failed to fetch Google public keys"⟩
  | .ok body => .ok ⟨body, ⟨some body, some now⟩, true⟩

/-- Model of `GoogleOAuthService._get_jwks`: serve from cache when the
cached document is truthy (non-empty), a cache time is set, and the age
is strictly below the TTL; otherwise fetch fresh keys. `upstream` is
the JWKS endpoint's response at this instant. -/
def get_jwks (st : JwksState) (ttl now : Int) (upstream : Except Unit Jwks) :
    Except HTTPException JwksResult :=
  match st.jwks_cache, st.jwks_cache_time with
  | some cached, some cached_time =>
    if cached ≠ [] ∧ now - cached_time < ttl then .ok ⟨cached, st, false⟩
    else fetch_jwks now upstream
  | _, _ => fetch_jwks now upstream

/-- Fernet ciphertext, modelled symbolically: an encryption of a
plaintext under a key, or an undecryptable blob. -/
inductive Ciphertext where
  | enc : Nat → String → Ciphertext
  | junk : String → Ciphertext
deriving Repr, DecidableEq

/-- Model of `Fernet(key).encrypt(plain.encode()).decode()`. -/
def fernetEncrypt (key : Nat) (plain : String) : Ciphertext := .enc key plain

/-- Model of `Fernet(key).decrypt(ct.encode()).decode()`: succeeds only
on a ciphertext produced under the same key. -/
def fernetDecrypt (key : Nat) : Ciphertext → Except Unit String
  | .enc k p => if k = key then .ok p else .error ()
  | .junk _ => .error ()

/-- JSON body of the provider's token-endpoint response to a
`grant_type=refresh_token` request, with its HTTP status. -/
structure ProviderTokenResponse where
  status : Nat
  access_token : Option String
  refresh_token : Option String
  expires_in : Option Int
deriving Repr, DecidableEq

/-- Dictionary returned by `refresh_access_token`. -/
structure RefreshResult where
  access_token : Option String
  refresh_token : Ciphertext
  expires_in : Int
deriving Repr, DecidableEq

/-- Model of `GoogleOAuthService.refresh_access_token`: decrypt the
stored ciphertext (401 "Invalid refresh token" on failure), call the
token endpoint (401 on a non-200 response), then return the new access
token together with either the encryption of a truthy new refresh token
or, when the response carries none, the original ciphertext unchanged.
`provider` maps the decrypted refresh token to the endpoint response. -/
def refresh_access_token (key : Nat) (encrypted_refresh_token : Ciphertext)
    (provider : String → ProviderTokenResponse) : Except HTTPException RefreshResult :=
  match fernetDecrypt key encrypted_refresh_token with
  | .error _ => .error ⟨401, "Invalid refresh token"⟩
  | .ok refresh_token =>
    let tokens := provider refresh_token
    if tokens.status ≠ 200 then .error ⟨401, "Failed to refresh access token"⟩
    else
      let encrypted_new_refresh :=
        if pyTruthyStr tokens.refresh_token then
          fernetEncrypt key (pyOrEmpty tokens.refresh_token)
        else encrypted_refresh_token
      .ok ⟨tokens.access_token, encrypted_new_refresh, tokens.expires_in.getD 3600⟩

/-! ### Helper lemmas -/

/-- Every payload returned by `verify_access_jwt` has a truthy `sub`. -/
theorem verify_ok_sub {tok : Token} {now : Int} {d : JwtPayload}
    (h : verify_access_jwt tok now = .ok d) : pyTruthyStr d.sub = true := by
  unfold verify_access_jwt at h
  split at h
  · simp at h
  · split at h
    · simp at h
    · simp at h
    · split at h
      · simp at h
      · rename_i hcond
        injection h with h
        subst h
        simpa using hcond

/-! ### Concrete inputs used by witnesses and counterexamples -/

/-- A payload correctly signed and audience-correct but carrying a
foreign issuer. -/
def issuer_mismatch_payload : JwtPayload :=
  ⟨some "user_1", none, none, [], none, [], 0, 900, "webapp-factory",
   "https://attacker.example.com"⟩

/-- A token over `issuer_mismatch_payload`, signed with the configured
secret and algorithm. -/
def issuer_mismatch_token : Token :=
  .signed ⟨issuer_mismatch_payload, APP_JWT_SECRET, "HS256"⟩

/-- Claims of a user with no subscription plan (`plan = None`). -/
def claims_no_plan : AuthClaims := ⟨"user_123", none, none, [], none, []⟩

/-- Claims failing both the "admin" role check and the "enterprise"
plan check. -/
def member_free_claims : AuthClaims :=
  ⟨"user_1", none, none, ["member"], some "free", []⟩

/-- Claims with no organization (`orgId = None`). -/
def claims_no_org : AuthClaims := ⟨"user_9", none, none, [], none, []⟩

/-- Claims whose organization id is the empty string. -/
def claims_empty_org : AuthClaims := ⟨"user_8", none, some "", [], none, []⟩

/-- A token signed over an empty subject (accepted by `sign_access_jwt`
without error). -/
def empty_sub_token : Token := sign_access_jwt "" none none none none none 15 0

/-- A hand-crafted, correctly signed token whose payload omits the
`sub` claim entirely. -/
def absent_sub_token : Token :=
  .signed ⟨⟨none, none, none, [], none, [], 0, 900, APP_JWT_AUDIENCE, APP_JWT_ISSUER⟩,
           APP_JWT_SECRET, APP_JWT_ALG⟩

/-- A well-formed demo token with subject "user_1". -/
def ok_demo_token : Token := sign_access_jwt "user_1" none none none none none 15 0

/-- The payload carried by `ok_demo_token`. -/
def ok_demo_payload : JwtPayload :=
  ⟨some "user_1", none, none, [], none, [], 0, 900, APP_JWT_AUDIENCE, APP_JWT_ISSUER⟩

/-! ### Claim theorems -/

/-- C1: contrary to the claim, `verify_access_jwt` accepts a token whose
issuer claim differs from the configured issuer, because the call to
`jwt.decode` passes no expected issuer — this theorem evaluates the code
at the failing input: a correctly signed, audience-correct, unexpired
token with a foreign `iss` is returned as valid claims. -/
theorem verify_accepts_wrong_issuer :
    issuer_mismatch_payload.iss ≠ APP_JWT_ISSUER ∧
    verify_access_jwt issuer_mismatch_token 100 = .ok issuer_mismatch_payload := by
  decide

/-- C2: contrary to the claim, a claims object with a null plan does
satisfy `require_plan` and `guard_plan` when the empty string is among
the allowed plans, because both guards normalize the claim plan with
`(claims.plan or "")`; `AuthClaims.has_plan` on the same input correctly
reports no match.  This theorem evaluates the code at the failing
input. -/
theorem plan_guards_accept_null_plan_when_empty_allowed :
    require_plan [""] claims_no_plan = .ok claims_no_plan ∧
    guard_plan [""] (fun _ => .ok 0) ⟨some claims_no_plan⟩ = .ok (0 : Nat) ∧
    claims_no_plan.has_plan [""] = false := by decide

/-- C3: verifying a token produced by `sign_access_jwt` before its
expiry succeeds and returns the signed claims unchanged — subject,
email, orgId, plan exactly, roles and features as signed (a null input
list having been normalized to `[]` by signing) — with only the
`iat`/`exp`/`aud`/`iss` fields added by signing. -/
theorem sign_verify_roundtrip (sub : String) (email orgId plan : Option String)
    (roles features : Option (List String)) (ttl t0 t : Int)
    (hsub : sub ≠ "") (httl : 0 < ttl) (ht : t < t0 + ttl * 60) :
    verify_access_jwt (sign_access_jwt sub email orgId roles plan features ttl t0) t =
      .ok ⟨some sub, email, orgId, pyOrNil roles, plan, pyOrNil features,
           t0, t0 + ttl * 60, APP_JWT_AUDIENCE, APP_JWT_ISSUER⟩ := by
  unfold verify_access_jwt sign_access_jwt jwtDecode
  have hexp : ¬ (t0 + ttl * 60 ≤ t) := by omega
  simp [claimMismatch, pyTruthyStr, hexp, hsub]

/-- Witness for C3 at the spec's own scenario: signing
`{sub:"u1", roles:["member"], plan:"free"}` with ttl 5 minutes and
verifying one minute later. -/
theorem sign_verify_roundtrip_witness :
    verify_access_jwt (sign_access_jwt "u1" none none (some ["member"])
        (some "free") none 5 0) 60 =
      .ok ⟨some "u1", none, none, ["member"], some "free", [],
           0, 300, APP_JWT_AUDIENCE, APP_JWT_ISSUER⟩ :=
  sign_verify_roundtrip "u1" none none (some "free") (some ["member"]) none 5 0 60
    (by decide) (by decide) (by decide)

/-- C4: `combine_guards` wraps so that the first guard runs first and
short-circuits; combining the "admin" role guard with the "enterprise"
plan guard on claims failing both yields the insufficient-role error,
not the plan error, for any wrapped function. -/
theorem combine_guards_role_error_first {α : Type} (claims : AuthClaims)
    (fn : ServiceFn α) (kwargs : Kwargs)
    (hkw : kwargs.claims = some claims)
    (hrole : ((claims.roles.map pyLower).any fun r =>
      (["admin"].map pyLower).contains r) = false)
    (hplan : ((["enterprise"].map pyLower).contains
      (pyLower (pyOrEmpty claims.plan))) = false) :
    combine_guards [guard_roles ["admin"], guard_plan ["enterprise"]] fn kwargs =
      .error ⟨"Insufficient role. Required: admin"⟩ := by
  show guard_roles ["admin"] (guard_plan ["enterprise"] fn) kwargs = _
  unfold guard_roles
  rw [hkw]
  split
  · rename_i heq
    exact Option.noConfusion heq
  · rename_i c heq
    injection heq with heq
    subst heq
    dsimp only
    split
    · rfl
    · rename_i hcond
      exact (hcond (by rw [hrole]; decide)).elim

/-- Witness for C4 on a member of the free plan. -/
theorem combine_guards_role_error_first_witness :
    combine_guards [guard_roles ["admin"], guard_plan ["enterprise"]]
        (fun _ => .ok (0 : Nat)) ⟨some member_free_claims⟩ =
      .error ⟨"Insufficient role. Required: admin"⟩ :=
  combine_guards_role_error_first member_free_claims (fun _ => .ok 0)
    ⟨some member_free_claims⟩ rfl (by decide) (by decide)

/-- C5: a claims object with `orgId = None` never satisfies
`belongs_to_org` for any requested org (including `None` itself and the
empty string) and never satisfies `require_org`; a claims object with
`orgId = ""` matches exactly the requested id `""`. -/
theorem org_null_never_matches_empty_matches_exactly :
    (∀ c : AuthClaims, c.orgId = none →
      (∀ org : Option String, c.belongs_to_org org = false) ∧
      (∀ pathVal queryVal : Option String, ∀ c' : AuthClaims,
        require_org pathVal queryVal c ≠ .ok c')) ∧
    (∀ c : AuthClaims, c.orgId = some "" →
      ∀ org : Option String, (c.belongs_to_org org = true ↔ org = some "")) := by
  constructor
  · intro c hc
    constructor
    · intro org
      simp [AuthClaims.belongs_to_org, hc]
    · intro pathVal queryVal c'
      unfold require_org
      by_cases hp : pyTruthyStr (resolveOrgParam pathVal queryVal) = true
      · simp [hp, AuthClaims.belongs_to_org, hc]
      · simp [hp]
  · intro c hc org
    cases org with
    | none => simp [AuthClaims.belongs_to_org, hc, pyStr]
    | some s =>
      simp [AuthClaims.belongs_to_org, hc, pyStr]
      exact eq_comm

/-- Witness for C5: null org fails even against the empty string, while
an empty-string org matches the empty string. -/
theorem org_null_never_matches_witness :
    claims_no_org.belongs_to_org (some "") = false ∧
    claims_empty_org.belongs_to_org (some "") = true :=
  ⟨(org_null_never_matches_empty_matches_exactly.1 claims_no_org rfl).1 (some ""),
   (org_null_never_matches_empty_matches_exactly.2 claims_empty_org rfl
     (some "")).mpr rfl⟩

/-- C6: every token signed with a non-positive ttl is rejected as
expired by `verify_access_jwt` at any verification instant at or after
the signing instant, whatever the claims are. -/
theorem sign_nonpositive_ttl_always_expired (sub : String)
    (email orgId plan : Option String) (roles features : Option (List String))
    (ttl t0 t : Int) (httl : ttl ≤ 0) (ht : t0 ≤ t) :
    verify_access_jwt (sign_access_jwt sub email orgId roles plan features ttl t0) t =
      .error (JWTError "Token expired") := by
  unfold verify_access_jwt sign_access_jwt jwtDecode
  have hexp : t0 + ttl * 60 ≤ t := by omega
  simp [hexp]

/-- Witness for C6: a ttl-0 token verified five seconds after signing. -/
theorem sign_nonpositive_ttl_always_expired_witness :
    verify_access_jwt (sign_access_jwt "u1" none none none none none 0 0) 5 =
      .error (JWTError "Token expired") :=
  sign_nonpositive_ttl_always_expired "u1" none none none none none 0 0 5
    (by decide) (by decide)

/-- C7: starting from an empty JWKS cache, a first lookup fetches
upstream and populates the cache; a second lookup within the TTL window
is served from the cache with no fetch (so the two lookups cause exactly
one upstream fetch), and a lookup at or after TTL expiry fetches again
and unconditionally replaces the cached document and its timestamp. -/
theorem jwks_cache_one_fetch_within_ttl (ttl t1 t2 t3 : Int) (u1 u2 : Jwks)
    (h1 : u1 ≠ []) (h12 : t2 - t1 < ttl) (h13 : ttl ≤ t3 - t1) :
    get_jwks ⟨none, none⟩ ttl t1 (.ok u1) = .ok ⟨u1, ⟨some u1, some t1⟩, true⟩ ∧
    get_jwks ⟨some u1, some t1⟩ ttl t2 (.ok u2) = .ok ⟨u1, ⟨some u1, some t1⟩, false⟩ ∧
    get_jwks ⟨some u1, some t1⟩ ttl t3 (.ok u2) = .ok ⟨u2, ⟨some u2, some t3⟩, true⟩ := by
  refine ⟨rfl, ?_, ?_⟩
  · simp [get_jwks, h1, h12]
  · have h : ¬ (t3 - t1 < ttl) := by omega
    simp [get_jwks, fetch_jwks, h]

/-- Witness for C7 with the default one-hour TTL: lookups at 0 s and
10 s cause one fetch; a lookup at 3600 s refetches and replaces. -/
theorem jwks_cache_one_fetch_within_ttl_witness :
    get_jwks ⟨none, none⟩ jwks_cache_ttl 0 (.ok [("kid1", "k1")]) =
      .ok ⟨[("kid1", "k1")], ⟨some [("kid1", "k1")], some 0⟩, true⟩ ∧
    get_jwks ⟨some [("kid1", "k1")], some 0⟩ jwks_cache_ttl 10 (.ok [("kid2", "k2")]) =
      .ok ⟨[("kid1", "k1")], ⟨some [("kid1", "k1")], some 0⟩, false⟩ ∧
    get_jwks ⟨some [("kid1", "k1")], some 0⟩ jwks_cache_ttl 3600 (.ok [("kid2", "k2")]) =
      .ok ⟨[("kid2", "k2")], ⟨some [("kid2", "k2")], some 3600⟩, true⟩ :=
  jwks_cache_one_fetch_within_ttl jwks_cache_ttl 0 10 3600
    [("kid1", "k1")] [("kid2", "k2")] (by decide) (by decide) (by decide)

/-- C8: for a decryptable stored refresh token and a successful provider
response, `refresh_access_token` returns the original ciphertext
unchanged when the response carries no new refresh token, and returns
the encryption of the new refresh token (decrypting back to it) when it
does. -/
theorem refresh_rotation_opportunistic (key : Nat) (ct : Ciphertext) (rt : String)
    (provider : String → ProviderTokenResponse)
    (hdec : fernetDecrypt key ct = .ok rt)
    (hstatus : (provider rt).status = 200) :
    ((provider rt).refresh_token = none →
      refresh_access_token key ct provider =
        .ok ⟨(provider rt).access_token, ct, (provider rt).expires_in.getD 3600⟩) ∧
    (∀ nrt, (provider rt).refresh_token = some nrt → nrt ≠ "" →
      refresh_access_token key ct provider =
        .ok ⟨(provider rt).access_token, fernetEncrypt key nrt,
             (provider rt).expires_in.getD 3600⟩ ∧
      fernetDecrypt key (fernetEncrypt key nrt) = .ok nrt) := by
  constructor
  · intro hnone
    simp [refresh_access_token, hdec, hstatus, hnone, pyTruthyStr]
  · intro nrt hsome hne
    refine ⟨?_, by simp [fernetEncrypt, fernetDecrypt]⟩
    simp [refresh_access_token, hdec, hstatus, hsome, pyTruthyStr, pyOrEmpty, hne]

/-- Witness for C8, exercising both branches at concrete inputs. -/
theorem refresh_rotation_opportunistic_witness :
    refresh_access_token 7 (.enc 7 "rt0") (fun _ => ⟨200, some "at1", none, some 1800⟩) =
      .ok ⟨some "at1", .enc 7 "rt0", 1800⟩ ∧
    refresh_access_token 7 (.enc 7 "rt0") (fun _ => ⟨200, some "at1", some "rt1", none⟩) =
      .ok ⟨some "at1", fernetEncrypt 7 "rt1", 3600⟩ :=
  ⟨(refresh_rotation_opportunistic 7 (.enc 7 "rt0") "rt0"
      (fun _ => ⟨200, some "at1", none, some 1800⟩) (by decide) rfl).1 rfl,
   ((refresh_rotation_opportunistic 7 (.enc 7 "rt0") "rt0"
      (fun _ => ⟨200, some "at1", some "rt1", none⟩) (by decide) rfl).2 "rt1" rfl
      (by decide)).1⟩

/-- C9: for every authorization header and verification instant,
`optional_auth` never raises: it returns `None` exactly when
`auth_required` fails (missing header, non-bearer header, or any token
verification failure) and returns the very claims `auth_required`
returns when verification succeeds. -/
theorem optional_auth_never_raises (a : AuthHeader) (now : Int) :
    (∃ c, auth_required a now = .ok c ∧ optional_auth a now = .ok (some c)) ∨
    (∃ e, auth_required a now = .error e ∧ optional_auth a now = .ok none) := by
  cases a with
  | missing => exact .inr ⟨.http ⟨401, "Missing bearer token"⟩, rfl, rfl⟩
  | nonBearer s => exact .inr ⟨.http ⟨401, "Missing bearer token"⟩, rfl, rfl⟩
  | bearer tok =>
    cases hv : verify_access_jwt tok now with
    | error e =>
      refine .inr ⟨.http e, ?_, ?_⟩ <;>
        simp [auth_required, optional_auth, extract_bearer_token, hv]
    | ok d =>
      have hs := verify_ok_sub hv
      cases hd : d.sub with
      | none => rw [hd] at hs; simp [pyTruthyStr] at hs
      | some s =>
        rw [hd] at hs
        have hne : ¬ (s = "") := by simpa [pyTruthyStr] using hs
        refine .inl ⟨⟨s, d.email, d.orgId, d.roles, d.plan, d.features⟩, ?_, ?_⟩ <;>
          simp [auth_required, optional_auth, extract_bearer_token, hv,
            mkAuthClaims, hd, hne]

/-- C10: every claims dictionary returned by `verify_access_jwt` has a
present, non-empty subject; a correctly signed token whose subject is
the empty string (which `sign_access_jwt` accepts) and one whose
subject is absent entirely are both rejected with the same distinguished
"Missing subject" error. -/
theorem verify_sub_nonempty :
    (∀ (tok : Token) (now : Int) (d : JwtPayload),
      verify_access_jwt tok now = .ok d → ∃ s, d.sub = some s ∧ s ≠ "") ∧
    verify_access_jwt empty_sub_token 0 = .error (JWTError "Missing subject") ∧
    verify_access_jwt absent_sub_token 0 = .error (JWTError "Missing subject") := by
  refine ⟨?_, by decide, by decide⟩
  intro tok now d h
  have hs := verify_ok_sub h
  cases hd : d.sub with
  | none => rw [hd] at hs; simp [pyTruthyStr] at hs
  | some s => exact ⟨s, rfl, by rw [hd] at hs; simpa [pyTruthyStr] using hs⟩

/-- Witness for C10 at a concrete verified token. -/
theorem verify_sub_nonempty_witness :
    ∃ s, ok_demo_payload.sub = some s ∧ s ≠ "" :=
  verify_sub_nonempty.1 ok_demo_token 0 ok_demo_payload (by decide)

end WebappFactory
